import Mathlib

/-!
Verification of the Vote-Chess engine of `bot.py` (UVMCC-Discord-Bot).

The definitions below are a shallow embedding of the `/vc` command handler
and its SQLite tables.  The four tables (`VoteMatches`, `VoteMatchPairings`,
`VoteMatchVotes`, `VoteMatchDrawOffers`) are modelled as Lean lists of rows,
and each sub-command (`create`, `abort`, `join`, `leave`, `start`, `vote`)
as a function from engine state to engine state plus an outcome describing
which reply/early return the handler took.

The chess library (`python-chess`) is the external Rules Adapter: its
verdicts about a position (legality/canonical SAN of a candidate move,
checkmate/stalemate/repetition/fifty-move detection, side to move) enter
the model as explicit parameters, exactly where `bot.py` calls it.
Matches are modelled with the default starting position, so
`board.ply()` is the length of the mainline and the side to move is white
iff that length is even (`bot.py` computes both via `get_current_board`).
-/

namespace UVMCC

/-- Sides a player can join with (`MatchSides` table, `bot.py on_ready`). -/
inductive Side where
  | White
  | Black
  | Both
  | Random
deriving DecidableEq, Repr

/-- Match statuses (`MatchStatuses` table, `bot.py on_ready`):
"Not Started", "In Progress", "Aborted", "Abandoned", "Complete". -/
inductive MatchStatus where
  | NotStarted
  | InProgress
  | Aborted
  | Abandoned
  | Complete
deriving DecidableEq, Repr

/-- Python string comparison `a < b`: lexicographic on Unicode code points.
(Lean's builtin `String` order has the same semantics but its instance does
not reduce in the kernel, so we spell it out over `String.data`.) -/
def pyStrLT (a b : String) : Bool :=
  pyCharsLT a.data b.data
where
  pyCharsLT : List Char → List Char → Bool
    | [], [] => false
    | [], _ :: _ => true
    | _ :: _, [] => false
    | c :: cs, d :: ds =>
        if c.val < d.val then true
        else if d.val < c.val then false
        else pyCharsLT cs ds

/-- Python list comparison `a < b` (lexicographic, elementwise) for lists of
strings, as applied to the vote-grouping lists in `bot.py` line 2115. -/
def pyListLT : List String → List String → Bool
  | [], [] => false
  | [], _ :: _ => true
  | _ :: _, [] => false
  | a :: as, b :: bs =>
      if pyStrLT a b then true
      else if pyStrLT b a then false
      else pyListLT as bs

/-- Python list comparison `a > b`, i.e. `b < a`. -/
def pyListGT (a b : List String) : Bool := pyListLT b a

/-- One move-vote group: the candidate move (canonical SAN) together with the
players who voted for it, in database row order.  This is one entry of the
`players_by_vote` dict in `bot.py`. -/
abbrev VoteGroup := String × List String

/-- Append player `p` to the group of move `m`, creating the group at the end
if it does not exist yet: `players_by_vote[vote].append(discord_id)` on a
`defaultdict(list)`, which keeps keys in first-insertion order. -/
def addVote (acc : List VoteGroup) (m p : String) : List VoteGroup :=
  match acc with
  | [] => [(m, [p])]
  | (m', ps) :: rest =>
      if m' = m then (m', ps ++ [p]) :: rest
      else (m', ps) :: addVote rest m p

/-- Group the `(discord_id, vote)` rows of one ply by vote, skipping rows
whose `vote` is NULL (resign/draw-only rows), as in the
`for discord_id, vote, voted_draw, voted_resign in result:` loop. -/
def groupVotes (rows : List (String × Option String)) : List VoteGroup :=
  rows.foldl (fun acc r =>
    match r.2 with
    | none => acc
    | some m => addVote acc m r.1) []

/-- Insert a group into a list already sorted by descending player-count,
keeping insertion-order among equal counts (stability). -/
def insertDescByLen (x : VoteGroup) : List VoteGroup → List VoteGroup
  | [] => [x]
  | y :: ys =>
      if x.2.length < y.2.length then y :: insertDescByLen x ys
      else x :: y :: ys

/-- Stable sort by descending player-count:
`sorted(players_by_vote.items(), key=lambda e: len(e[1]), reverse=True)`.
Python's sort is stable, and so is this insertion sort. -/
def sortDescByLen : List VoteGroup → List VoteGroup
  | [] => []
  | x :: xs => insertDescByLen x (sortDescByLen xs)

/-- The winner selection of the tally (`bot.py` lines 2113-2115): the sorted
group list `vote_counts` elects `vote_counts[0][0]` when there is a single
group or when `vote_counts[0][1] > vote_counts[1][1]` — note that the source
compares the two PLAYER LISTS with Python's lexicographic list order, not
their lengths.  `none` means the tie branch (revote) is taken. -/
def tallyWinner (rows : List (String × Option String)) : Option String :=
  match sortDescByLen (groupVotes rows) with
  | [] => none
  | [g] => some g.1
  | g0 :: g1 :: _ => if pyListGT g0.2 g1.2 then some g0.1 else none

/-- Spec-side definition, for comparison with `tallyWinner` (spec §4.3):
"group votes by canonicalized candidate; sort groups by descending size.
If there is a unique maximum (strict top count), that candidate wins." -/
def specStrictTopWinner (rows : List (String × Option String)) : Option String :=
  match sortDescByLen (groupVotes rows) with
  | [] => none
  | [g] => some g.1
  | g0 :: g1 :: _ => if g1.2.length < g0.2.length then some g0.1 else none

/-- One row of the `VoteMatches` table (without columns the engine never
reads back: display name, starting FEN, `hours_between_moves`,
`last_move_unix_time`, `unix_time_created`, `hide_votes`).  The `pgn`
column is modelled by its mainline, the list of SAN moves played. -/
structure MatchRow where
  matchCode : String
  mainline : List String
  status : MatchStatus
  result : Option String
  termination : String
  unixTimeStarted : Option Nat
  unixTimeEnded : Option Nat
deriving DecidableEq, Repr

/-- The value `board.ply()` of the match's current position (default starting FEN). -/
def MatchRow.plyCount (m : MatchRow) : Nat := m.mainline.length

/-- Side to move of the match's current position: `get_turn(board=...)`,
`True` = white (default starting FEN). -/
def MatchRow.turnWhite (m : MatchRow) : Bool := m.mainline.length % 2 == 0

/-- One row of `VoteMatchPairings`. -/
structure PairingRow where
  matchCode : String
  discordId : String
  side : Side
  votesCast : Nat
  topMoveVotesCast : Nat
deriving DecidableEq, Repr

/-- One row of `VoteMatchVotes` (key: match, player, ply). -/
structure VoteRow where
  matchCode : String
  discordId : String
  plyCount : Nat
  vote : Option String
  votedResign : Bool
  votedDraw : Bool
deriving DecidableEq, Repr

/-- One row of `VoteMatchDrawOffers` (key: match, ply). -/
structure DrawOfferRow where
  matchCode : String
  plyCount : Nat
  votedDraw : Bool
deriving DecidableEq, Repr

/-- The persistent store: the four Vote-Chess tables. -/
structure EngineState where
  voteMatches : List MatchRow
  pairings : List PairingRow
  votes : List VoteRow
  drawOffers : List DrawOfferRow
deriving DecidableEq, Repr

/-- The query `SELECT ... FROM VoteMatches WHERE match_code LIKE ?` (codes are
upper-case alphabetic, so `LIKE` is equality here); the handler always takes
`result[0]`. -/
def findMatch (st : EngineState) (mc : String) : Option MatchRow :=
  st.voteMatches.find? (fun m => m.matchCode == mc)

/-- The SQL filter `side IN (?, "Both")` with `?` = the capitalized side to
move (`orientation.capitalize()`). -/
def sideEligible (turnW : Bool) (s : Side) : Bool :=
  s == (if turnW then Side.White else Side.Black) || s == Side.Both

/-- The query `SELECT * FROM VoteMatchPairings WHERE match_code LIKE ? AND side IN
(?, "Both")`: the pairings eligible to vote at the current ply. -/
def eligiblePairings (pairings : List PairingRow) (mc : String) (turnW : Bool) :
    List PairingRow :=
  pairings.filter (fun p => p.matchCode == mc && sideEligible turnW p.side)

/-- The query `SELECT discord_id FROM VoteMatchPairings WHERE match_code LIKE ? AND side
IN (?, "Both") AND discord_id NOT IN (SELECT discord_id FROM VoteMatchVotes
WHERE match_code LIKE ? AND ply_count = ? AND vote IS NOT NULL)`: eligible
players still without a non-null move vote at this ply. -/
def eligibleNotVoted (pairings : List PairingRow) (votes : List VoteRow)
    (mc : String) (turnW : Bool) (ply : Nat) : List PairingRow :=
  (eligiblePairings pairings mc turnW).filter (fun p =>
    !(votes.any (fun v =>
      v.matchCode == mc && v.plyCount == ply && v.vote.isSome &&
      v.discordId == p.discordId)))

/-- Eligible pairings whose player has the given flag set at this ply:
`... AND discord_id IN (SELECT discord_id FROM VoteMatchVotes WHERE
match_code LIKE ? AND voted_<flag> = 1 AND ply_count = ?)`. -/
def eligibleFlagged (pairings : List PairingRow) (votes : List VoteRow)
    (mc : String) (turnW : Bool) (ply : Nat) (isDraw : Bool) : List PairingRow :=
  (eligiblePairings pairings mc turnW).filter (fun p =>
    votes.any (fun v =>
      v.matchCode == mc && v.discordId == p.discordId && v.plyCount == ply &&
      (if isDraw then v.votedDraw else v.votedResign)))

/-- The Rules Adapter's verdict on the position reached after a move:
`board.is_game_over()`, `is_checkmate()`, `is_stalemate()`,
`is_repetition()`, `is_fifty_moves()` and `board.turn` of the resulting
position, as `bot.py` lines 2157-2222 query them. -/
structure BoardVerdict where
  isGameOver : Bool
  isCheckmate : Bool
  isStalemate : Bool
  isRepetition : Bool
  isFiftyMoves : Bool
  turnWhite : Bool
deriving DecidableEq, Repr

/-- The update `UPDATE VoteMatches SET status = "Complete", result = ?, termination = ?,
unix_time_ended = ?` — the game-over updates of `bot.py` lines 2165-2218
carry NO `WHERE` clause, so every row of the table is updated. -/
def completeAllRows (t : List MatchRow) (res term : String) (now : Nat) :
    List MatchRow :=
  t.map (fun r =>
    { r with status := MatchStatus.Complete, result := some res,
             termination := term, unixTimeEnded := some now })

/-- The game-over dispatch of `bot.py` lines 2157-2222, applied to the whole
`VoteMatches` table.  Checkmate termination is `('1-0', '0-1')[board.turn]`:
the side to move in the mated position loses. -/
def applyGameEnd (t : List MatchRow) (v : BoardVerdict) (now : Nat) :
    List MatchRow :=
  if v.isGameOver then
    if v.isCheckmate then
      completeAllRows t "checkmate" (if v.turnWhite then "0-1" else "1-0") now
    else if v.isStalemate then completeAllRows t "stalemate" "1/2-1/2" now
    else if v.isRepetition then completeAllRows t "repetition" "1/2-1/2" now
    else if v.isFiftyMoves then completeAllRows t "50-move rule" "1/2-1/2" now
    else completeAllRows t "unknown" "*" now
  else t

/-- The insert `INSERT INTO VoteMatchVotes(match_code, discord_id, ply_count, vote)`,
falling back to `UPDATE ... SET vote = ?` on a primary-key conflict (the
player already has a resign/draw-only row at this ply), `bot.py` lines
2014-2032. -/
def insertMoveVote (votes : List VoteRow) (mc player : String) (ply : Nat)
    (san : String) : List VoteRow :=
  if votes.any (fun v =>
      v.matchCode == mc && v.discordId == player && v.plyCount == ply) then
    votes.map (fun v =>
      if v.matchCode == mc && v.discordId == player && v.plyCount == ply then
        { v with vote := some san }
      else v)
  else
    votes ++ [⟨mc, player, ply, some san, false, false⟩]

/-- The update `UPDATE VoteMatches SET status = "Complete", result = ?,
termination = ?, unix_time_ended = ? WHERE match_code LIKE ?`: the
draw-accept and resignation updates (`bot.py` lines 1790-1797 and
1884-1891), which unlike the game-over updates do carry a `WHERE`. -/
def completeMatchRow (t : List MatchRow) (mc res term : String)
    (now : Nat) : List MatchRow :=
  t.map (fun r =>
    if r.matchCode == mc then
      { r with status := MatchStatus.Complete, result := some res,
               termination := term, unixTimeEnded := some now }
    else r)

/-- How the `vote` sub-command replied / returned for a move vote. -/
inductive MoveVoteOutcome where
  | noSuchMatch
  | matchNotInProgress (s : MatchStatus)
  | wrongSide
  | illegalMove
  | integrityMultipleVotes
  | duplicateVote
  | voteRecorded
  | integrityNoVotes
  | tallyIndexError
  | movePlayed (san : String) (gameEnded : Bool)
  | revoteTie
deriving DecidableEq, Repr

/-- The synchronous tally of a completed round, `bot.py` lines 2082-2349,
run on the store state that already holds the triggering vote.  On a win:
bump `top_move_votes_cast` for the winner's voters and `votes_cast` for
all voters of the ply (lines 2125-2147), run the game-over updates — which
carry no `WHERE` clause — (lines 2157-2222), and write the extended
mainline back for this match (line 2224).  On a tie: delete all vote rows
of this match and ply (lines 2316-2325). -/
def runTally (st : EngineState) (mc : String) (ply : Nat)
    (verdict : BoardVerdict) (now : Nat) : EngineState × MoveVoteOutcome :=
  let rows := st.votes.filter (fun v =>
    v.matchCode == mc && v.plyCount == ply)
  if rows.isEmpty then (st, MoveVoteOutcome.integrityNoVotes)
  else
    let pairRows := rows.map (fun v => (v.discordId, v.vote))
    match tallyWinner pairRows with
    | some w =>
      let pairings' := st.pairings.map (fun p =>
        let p' :=
          if p.matchCode == mc && rows.any (fun v =>
              v.discordId == p.discordId && v.vote == some w) then
            { p with topMoveVotesCast := p.topMoveVotesCast + 1 }
          else p
        if p'.matchCode == mc && rows.any (fun v =>
            v.discordId == p'.discordId && v.vote.isSome) then
          { p' with votesCast := p'.votesCast + 1 }
        else p')
      let voteMatches' := (applyGameEnd st.voteMatches verdict now).map
        (fun r =>
          if r.matchCode == mc then
            { r with mainline := r.mainline ++ [w] }
          else r)
      (⟨voteMatches', pairings', st.votes, st.drawOffers⟩,
        MoveVoteOutcome.movePlayed w verdict.isGameOver)
    | none =>
      match sortDescByLen (groupVotes pairRows) with
      | [] =>
        -- `vote_counts[0][1]` on an empty list: IndexError
        (st, MoveVoteOutcome.tallyIndexError)
      | _ :: _ =>
        -- tie: DELETE FROM VoteMatchVotes WHERE match AND ply_count
        ({ st with votes := st.votes.filter (fun v =>
            !(v.matchCode == mc && v.plyCount == ply)) },
          MoveVoteOutcome.revoteTie)

/-- Casting a move vote, `bot.py` lines 1569-2349 (with an explicit match
code; the status, side, legality, duplicate and insert steps, and the
synchronous tally when the round completes).

`parsedSan`: the Rules Adapter's result for the move text — `None` when
neither `push_san` nor `push_uci` accepts it, otherwise the canonical
disambiguated SAN `current_board.san(move)` (line 1980); the stored votes
are therefore already canonical, and the re-canonicalization of the winner
at line 2122 is the identity on them.

`verdict`: the Rules Adapter's verdict on the position after the winning
move (only read when a tally elects a winner). -/
def vcCastMoveVote (st : EngineState) (mc player : String)
    (parsedSan : Option String) (verdict : BoardVerdict) (now : Nat) :
    EngineState × MoveVoteOutcome :=
  match findMatch st mc with
  | none => (st, MoveVoteOutcome.noSuchMatch)
  | some m =>
    if m.status ≠ MatchStatus.InProgress then
      (st, MoveVoteOutcome.matchNotInProgress m.status)
    else
      let ply := m.plyCount
      let turnW := m.turnWhite
      -- lines 1612-1624: the voter must be paired on the side to move
      if (st.pairings.filter (fun p =>
          p.matchCode == mc && p.discordId == player &&
          sideEligible turnW p.side)).isEmpty then
        (st, MoveVoteOutcome.wrongSide)
      else
      -- lines 1968-1978: neither SAN nor UCI parse succeeded
      match parsedSan with
      | none => (st, MoveVoteOutcome.illegalMove)
      | some san =>
        -- lines 1983-2012: reject if a non-null vote already exists
        let dupRows := st.votes.filter (fun v =>
          v.matchCode == mc && v.discordId == player && v.plyCount == ply &&
          v.vote.isSome)
        if dupRows.isEmpty then
          let votes' := insertMoveVote st.votes mc player ply san
          -- lines 2044-2058: who still needs to vote, after this insert
          if !(eligibleNotVoted st.pairings votes' mc turnW ply).isEmpty then
            ({ st with votes := votes' }, MoveVoteOutcome.voteRecorded)
          else
            runTally { st with votes := votes' } mc ply verdict now
        else if dupRows.length ≠ 1 then
          (st, MoveVoteOutcome.integrityMultipleVotes)
        else
          (st, MoveVoteOutcome.duplicateVote)

/-- Recording a resign/draw flag, `bot.py` lines 1655-1684: INSERT a
`vote=NULL` row carrying the flag, or — when the player already has a row
for this ply — UPDATE that row's flag. -/
def recordFlag (votes : List VoteRow) (mc player : String) (ply : Nat)
    (isDraw : Bool) : List VoteRow :=
  if votes.any (fun v =>
      v.matchCode == mc && v.discordId == player && v.plyCount == ply) then
    votes.map (fun v =>
      if v.matchCode == mc && v.discordId == player && v.plyCount == ply then
        (if isDraw then { v with votedDraw := true }
         else { v with votedResign := true })
      else v)
  else
    votes ++ [⟨mc, player, ply, none, !isDraw, isDraw⟩]

/-- The insert `INSERT OR IGNORE INTO VoteMatchDrawOffers(match_code, ply_count,
voted_draw) VALUES (?, ?, 1)`, `bot.py` lines 1766-1775. -/
def insertDrawOffer (offers : List DrawOfferRow) (mc : String) (ply : Nat) :
    List DrawOfferRow :=
  if offers.any (fun o => o.matchCode == mc && o.plyCount == ply) then offers
  else offers ++ [⟨mc, ply, true⟩]

/-- The query `SELECT * FROM VoteMatchDrawOffers WHERE match_code LIKE ? AND
ply_count = ? AND voted_draw = 1` with `?` = `ply_count - 1` (Python `int`
arithmetic: at ply 0 the query asks for -1 and finds nothing, hence the
`+ 1` on the row side). -/
def hasPrevDrawOffer (offers : List DrawOfferRow) (mc : String) (ply : Nat) :
    Bool :=
  offers.any (fun o =>
    o.matchCode == mc && o.plyCount + 1 == ply && o.votedDraw)

/-- How the `vote` sub-command replied / returned for a resign/draw vote. -/
inductive FlagVoteOutcome where
  | noSuchMatch
  | matchNotInProgress (s : MatchStatus)
  | wrongSide
  | alreadyVoted
  | assertAllVoted
  | integrityNoPlayersOnSide
  | integrityNoFlagVotes
  | flagRecordedNoMajority
  | drawOffered
  | drawAccepted
  | resigned
deriving DecidableEq, Repr

/-- Casting a `resign` or `draw` vote, `bot.py` lines 1569-1966 (`isDraw` is
`move_vote == 'draw'`).  Inserts/updates the flag on the player's vote row
for the current ply, then checks whether a majority
(`num_players_on_side // 2 + 1`) of the side to move has set the flag: on a
resign majority the match is completed as a resignation; on a draw majority
a `VoteMatchDrawOffers` marker is recorded for this ply and the match is
completed as a mutual-agreement draw exactly if a marker exists for the
previous ply.  (The `Result` PGN header written on match end and the
reply embeds are not modelled.) -/
def vcCastFlagVote (st : EngineState) (mc player : String) (isDraw : Bool)
    (now : Nat) : EngineState × FlagVoteOutcome :=
  match findMatch st mc with
  | none => (st, FlagVoteOutcome.noSuchMatch)
  | some m =>
    if m.status ≠ MatchStatus.InProgress then
      (st, FlagVoteOutcome.matchNotInProgress m.status)
    else
      let ply := m.plyCount
      let turnW := m.turnWhite
      -- lines 1612-1624: the voter must be paired on the side to move
      if (st.pairings.filter (fun p =>
          p.matchCode == mc && p.discordId == player &&
          sideEligible turnW p.side)).isEmpty then
        (st, FlagVoteOutcome.wrongSide)
      else
      -- lines 1630-1653: already voted this flag at this ply
      if st.votes.any (fun v =>
          v.matchCode == mc && v.discordId == player && v.plyCount == ply &&
          (if isDraw then v.votedDraw else v.votedResign)) then
        (st, FlagVoteOutcome.alreadyVoted)
      else
        let votes' := recordFlag st.votes mc player ply isDraw
        let st' : EngineState := { st with votes := votes' }
        -- lines 1686-1703: `assert not all_players_voted` (the write above
        -- is already committed when the assertion aborts the handler)
        if (eligibleNotVoted st.pairings votes' mc turnW ply).isEmpty then
          (st', FlagVoteOutcome.assertAllVoted)
        else
        -- lines 1727-1741: majority threshold of the side to move
        let nSide := (eligiblePairings st.pairings mc turnW).length
        if nSide == 0 then (st', FlagVoteOutcome.integrityNoPlayersOnSide)
        else
          let numVotesForMajority := nSide / 2 + 1
          -- lines 1743-1761: how many eligible players have set this flag
          let numPlayersVoted :=
            (eligibleFlagged st.pairings votes' mc turnW ply isDraw).length
          if numPlayersVoted == 0 then
            (st', FlagVoteOutcome.integrityNoFlagVotes)
          else if numVotesForMajority ≤ numPlayersVoted then
            if isDraw then
              let offers' := insertDrawOffer st.drawOffers mc ply
              -- lines 1777-1786: was a draw also offered at the previous ply?
              if hasPrevDrawOffer offers' mc ply then
                -- lines 1787-1800: draw accepted
                (⟨completeMatchRow st.voteMatches mc "mutual agreement"
                    "1/2-1/2" now, st.pairings, votes', offers'⟩,
                  FlagVoteOutcome.drawAccepted)
              else
                ({ st' with drawOffers := offers' },
                  FlagVoteOutcome.drawOffered)
            else
              -- lines 1876-1894: resignation; termination is
              -- `('1-0', '0-1')[orientation == 'white']`, so the side to
              -- move (the resigning team) loses
              (⟨completeMatchRow st.voteMatches mc "resignation"
                  (if turnW then "0-1" else "1-0") now,
                st.pairings, votes', st.drawOffers⟩,
                FlagVoteOutcome.resigned)
          else
            -- line 1965: no majority yet
            (st', FlagVoteOutcome.flagRecordedNoMajority)

inductive CreateOutcome where
  | codeCollision
  | created
deriving DecidableEq, Repr

/-- The `create` sub-command, `bot.py` lines 958-1014, for one candidate
match code (the handler loops drawing random 4-letter codes until one is
unused; a collision here stands for "draw again").  The new row takes the
column defaults: `result` NULL, `termination` "*", times NULL. -/
def vcCreateMatch (st : EngineState) (mc : String) : EngineState × CreateOutcome :=
  if st.voteMatches.any (fun r => r.matchCode == mc) then
    (st, CreateOutcome.codeCollision)
  else
    ({ st with voteMatches := st.voteMatches ++
        [⟨mc, [], MatchStatus.NotStarted, none, "*", none, none⟩] },
      CreateOutcome.created)

inductive AbortOutcome where
  | noSuchMatch
  | notAbortable (s : MatchStatus)
  | aborted
deriving DecidableEq, Repr

/-- The `abort` sub-command, `bot.py` lines 1015-1057: only a "Not Started"
match is aborted (`UPDATE VoteMatches SET status = "Aborted" WHERE
match_code LIKE ?`). -/
def vcAbortMatch (st : EngineState) (mc : String) : EngineState × AbortOutcome :=
  match findMatch st mc with
  | none => (st, AbortOutcome.noSuchMatch)
  | some m =>
    if m.status == MatchStatus.NotStarted then
      ({ st with voteMatches := st.voteMatches.map (fun r =>
          if r.matchCode == mc then { r with status := MatchStatus.Aborted }
          else r) },
        AbortOutcome.aborted)
    else (st, AbortOutcome.notAbortable m.status)

inductive JoinOutcome where
  | noSuchMatch
  | notJoinable (s : MatchStatus)
  | joined
deriving DecidableEq, Repr

/-- The `join` sub-command, `bot.py` lines 1058-1178: only a "Not Started"
match can be joined; `REPLACE INTO VoteMatchPairings(match_code, discord_id,
side)` drops any row with the same primary key (resetting the counters to
their defaults) and inserts the new one. -/
def vcJoinMatch (st : EngineState) (mc player : String) (side : Side) :
    EngineState × JoinOutcome :=
  match findMatch st mc with
  | none => (st, JoinOutcome.noSuchMatch)
  | some m =>
    if m.status == MatchStatus.NotStarted then
      ({ st with pairings := st.pairings.filter (fun p =>
          !(p.matchCode == mc && p.discordId == player)) ++
          [⟨mc, player, side, 0, 0⟩] },
        JoinOutcome.joined)
    else (st, JoinOutcome.notJoinable m.status)

inductive LeaveOutcome where
  | noSuchPairing
  | integrityMultiplePairings
  | left
deriving DecidableEq, Repr

/-- The `leave` sub-command with an explicit match code, `bot.py` lines
1237-1263: if the caller has a pairing for this code it is deleted —
`DELETE FROM VoteMatchPairings WHERE discord_id = ? AND match_code LIKE ?`.
The source carries `TODO only allow user to leave "Not Started" matches`:
no status check guards the delete. -/
def vcLeaveMatch (st : EngineState) (player mc : String) :
    EngineState × LeaveOutcome :=
  let mine := st.pairings.filter (fun p =>
    p.discordId == player && p.matchCode == mc)
  if mine.isEmpty then (st, LeaveOutcome.noSuchPairing)
  else if mine.length ≠ 1 then (st, LeaveOutcome.integrityMultiplePairings)
  else
    ({ st with pairings := st.pairings.filter (fun p =>
        !(p.discordId == player && p.matchCode == mc)) },
      LeaveOutcome.left)

/-- Computes `math.ceil(total / 2)` when `larger`, else `math.floor(total / 2)`:
the target team sizes of `bot.py` lines 1349-1350. -/
def futureTeamSize (total : Nat) (larger : Bool) : Nat :=
  if larger then (total + 1) / 2 else total / 2

/-- Result of the "transfer random players" block. -/
inductive FormationResult where
  | assertTeamsUnbalanced
  | badRandomSample
  | assertTransferMismatch
  | ok (transferToWhite transferToBlack : List String)
deriving DecidableEq, Repr

/-- The team-balancing block of `start`, `bot.py` lines 1340-1375, as a
function of the per-side player lists.  `coin` is
`bool(random.getrandbits(1))` (white gets the larger half when true) and
`sample` stands for `random.sample(random_players, num_transfer_to_white)`
— any choice of that many distinct members of the pool
(`badRandomSample` marks choices `random.sample` cannot return).
`transferToBlack` is the set difference `random_players - transfer_to_white`
(kept in pool order; only membership is used downstream), and
`assertTransferMismatch`/`assertTeamsUnbalanced` are the two `assert`s of
the block. -/
def vcStartFormation (whiteIds blackIds bothIds randomIds : List String)
    (coin : Bool) (sample : List String) : FormationResult :=
  if randomIds.isEmpty then FormationResult.ok [] []
  else
    let numWhite := whiteIds.length + bothIds.length
    let numBlack := blackIds.length + bothIds.length
    let numRandom := randomIds.length
    let numTotal := numWhite + numBlack + numRandom
    let ntw : Int := (futureTeamSize numTotal coin : Int) - numWhite
    let ntb : Int := (futureTeamSize numTotal (!coin) : Int) - numBlack
    let choice : Option (Nat × Nat) :=
      if ntw < 0 ∨ ntb < 0 then
        -- a side is already oversized: all random players to the other one
        if numWhite < numBlack then some (numRandom, 0)
        else if numBlack < numWhite then some (0, numRandom)
        else none                                         -- `assert False`
      else some (ntw.toNat, ntb.toNat)
    match choice with
    | none => FormationResult.assertTeamsUnbalanced
    | some (ntw', ntb') =>
      if sample.length = ntw' ∧ sample ⊆ randomIds ∧ sample.Nodup then
        let transferB := randomIds.filter (fun x => !(sample.contains x))
        if transferB.length ≠ ntb' then FormationResult.assertTransferMismatch
        else FormationResult.ok sample transferB
      else FormationResult.badRandomSample

inductive StartOutcome where
  | noSuchMatch
  | integrityMultipleMatches
  | notStartable (s : MatchStatus)
  | noPlayers
  | noPlayersOnSide
  | notEnoughPlayers
  | assertTeamsUnbalanced
  | badRandomSample
  | assertTransferMismatch
  | started
deriving DecidableEq, Repr

/-- The `start` sub-command, `bot.py` lines 1281-1443: validates the match
and its pairing counts, transfers the Random pool via `vcStartFormation`
(each transfer is `UPDATE VoteMatchPairings SET side = ... WHERE match_code
LIKE ? AND discord_id = ?`), then sets the match "In Progress". -/
def vcStartMatch (st : EngineState) (mc : String) (coin : Bool)
    (sample : List String) (now : Nat) : EngineState × StartOutcome :=
  match findMatch st mc with
  | none => (st, StartOutcome.noSuchMatch)
  | some m =>
    if (st.voteMatches.filter (fun r => r.matchCode == mc)).length ≠ 1 then
      (st, StartOutcome.integrityMultipleMatches)
    else if m.status ≠ MatchStatus.NotStarted then
      (st, StartOutcome.notStartable m.status)
    else
      let rows := st.pairings.filter (fun p => p.matchCode == mc)
      if rows.isEmpty then (st, StartOutcome.noPlayers)
      else
        let whiteIds := (rows.filter (fun p => p.side == Side.White)).map
          (fun p => p.discordId)
        let blackIds := (rows.filter (fun p => p.side == Side.Black)).map
          (fun p => p.discordId)
        let bothIds := (rows.filter (fun p => p.side == Side.Both)).map
          (fun p => p.discordId)
        let randomIds := (rows.filter (fun p => p.side == Side.Random)).map
          (fun p => p.discordId)
        let numWhite := whiteIds.length + bothIds.length
        let numBlack := blackIds.length + bothIds.length
        let numRandom := randomIds.length
        if (numWhite == 0 || numBlack == 0) && numRandom == 0 then
          (st, StartOutcome.noPlayersOnSide)
        else if numWhite == 0 && numBlack == 0 && numRandom < 2 then
          (st, StartOutcome.notEnoughPlayers)
        else
          match vcStartFormation whiteIds blackIds bothIds randomIds coin
              sample with
          | FormationResult.assertTeamsUnbalanced =>
              (st, StartOutcome.assertTeamsUnbalanced)
          | FormationResult.badRandomSample =>
              (st, StartOutcome.badRandomSample)
          | FormationResult.assertTransferMismatch =>
              (st, StartOutcome.assertTransferMismatch)
          | FormationResult.ok tw tb =>
            let pairings' := st.pairings.map (fun p =>
              if p.matchCode == mc && tw.contains p.discordId then
                { p with side := Side.White }
              else if p.matchCode == mc && tb.contains p.discordId then
                { p with side := Side.Black }
              else p)
            let voteMatches' := st.voteMatches.map (fun r =>
              if r.matchCode == mc then
                { r with status := MatchStatus.InProgress,
                         unixTimeStarted := some now }
              else r)
            (⟨voteMatches', pairings', st.votes, st.drawOffers⟩,
              StartOutcome.started)

/-- How the match-code inference of `/vc vote <move>` (no explicit code)
ends. -/
inductive VoteInferOutcome where
  | indexError
  | disambiguate (codes : List String)
  | notValidInAnyGame
  | proceed (mc : String)
deriving DecidableEq, Repr

/-- Match-code inference for `/vc vote <move>` without an explicit code,
`bot.py` lines 1466-1567.  `results` carries, for each "In Progress" match
the caller is paired in, its code plus the Rules Adapter's verdicts "it is
the caller's side's turn" and "the move text is legal there" (used only on
the normal-move path).  When `results` is empty the handler sends the
"You are not participating in any active Vote Chess matches" notice — and
then FALLS THROUGH (there is no `return` after line 1500), so the
resign/draw branch reaches `valid_match_codes[0]` (line 1564) on an empty
list: an uncaught `IndexError`.  The normal-move branch instead returns at
line 1551-1553 when no game validates the move. -/
def inferVoteMatchCode (results : List (String × Bool × Bool))
    (isFlagVote : Bool) : VoteInferOutcome :=
  if isFlagVote then
    let valid := results.map (fun r => r.1)
    if valid.length ≥ 2 then VoteInferOutcome.disambiguate valid
    else
      match valid with
      | [] => VoteInferOutcome.indexError
      | mc :: _ => VoteInferOutcome.proceed mc
  else
    let valid := (results.filter (fun r => r.2.1 && r.2.2)).map (fun r => r.1)
    if valid.isEmpty then VoteInferOutcome.notValidInAnyGame
    else if valid.length ≥ 2 then VoteInferOutcome.disambiguate valid
    else
      match valid with
      | [] => VoteInferOutcome.indexError
      | mc :: _ => VoteInferOutcome.proceed mc

/-- The states the store can reach through the engine's operations,
starting from the empty tables created by `on_ready`. -/
inductive Reach : EngineState → Prop where
  | init : Reach ⟨[], [], [], []⟩
  | create (st : EngineState) (mc : String) :
      Reach st → Reach (vcCreateMatch st mc).1
  | abort (st : EngineState) (mc : String) :
      Reach st → Reach (vcAbortMatch st mc).1
  | join (st : EngineState) (mc player : String) (side : Side) :
      Reach st → Reach (vcJoinMatch st mc player side).1
  | leave (st : EngineState) (player mc : String) :
      Reach st → Reach (vcLeaveMatch st player mc).1
  | start (st : EngineState) (mc : String) (coin : Bool)
      (sample : List String) (now : Nat) :
      Reach st → Reach (vcStartMatch st mc coin sample now).1
  | moveVote (st : EngineState) (mc player : String)
      (parsedSan : Option String) (verdict : BoardVerdict) (now : Nat) :
      Reach st → Reach (vcCastMoveVote st mc player parsedSan verdict now).1
  | flagVote (st : EngineState) (mc player : String) (isDraw : Bool)
      (now : Nat) :
      Reach st → Reach (vcCastFlagVote st mc player isDraw now).1

/-- White/Black team size of a match, players joined as `Both` counted on
both sides (spec §4.2). -/
def teamSize (st : EngineState) (mc : String) (white : Bool) : Nat :=
  (st.pairings.filter (fun p => p.matchCode == mc &&
    (p.side == (if white then Side.White else Side.Black) ||
     p.side == Side.Both))).length

/-! ## Concrete scenarios -/

/-- A verdict of a quiet position: the game goes on. -/
def quietVerdict : BoardVerdict := ⟨false, false, false, false, false, false⟩

/-- Match `ABCD` at the initial position, white to move; `alice` and `bob`
have already voted `e4`, `zed` has not voted yet. -/
def c1State : EngineState :=
  ⟨[⟨"ABCD", [], MatchStatus.InProgress, none, "*", some 0, none⟩],
   [⟨"ABCD", "alice", Side.White, 0, 0⟩,
    ⟨"ABCD", "bob", Side.White, 0, 0⟩,
    ⟨"ABCD", "zed", Side.White, 0, 0⟩],
   [⟨"ABCD", "alice", 0, some "e4", false, false⟩,
    ⟨"ABCD", "bob", 0, some "e4", false, false⟩],
   []⟩

/-- Match `ABCD` at the initial position, white to move; `bob` has already
voted `e4`, `alice` has not voted yet. -/
def c2State : EngineState :=
  ⟨[⟨"ABCD", [], MatchStatus.InProgress, none, "*", some 0, none⟩],
   [⟨"ABCD", "bob", Side.White, 0, 0⟩,
    ⟨"ABCD", "alice", Side.White, 0, 0⟩],
   [⟨"ABCD", "bob", 0, some "e4", false, false⟩],
   []⟩

/-- Match `ABCD` after 1. f3 e5 2. g4 (black to move, `dan` the only black
player) alongside the independent fresh match `WXYZ`. -/
def c3State : EngineState :=
  ⟨[⟨"ABCD", ["f3", "e5", "g4"], MatchStatus.InProgress, none, "*",
     some 0, none⟩,
    ⟨"WXYZ", [], MatchStatus.InProgress, none, "*", some 0, none⟩],
   [⟨"ABCD", "dan", Side.Black, 0, 0⟩],
   [], []⟩

/-- The Rules Adapter's verdict after 2...Qh4#: checkmate, white to move. -/
def mateVerdict : BoardVerdict := ⟨true, true, false, false, false, true⟩

/-- An in-progress match `ABCD` in which `alice` is paired as white. -/
def c9State : EngineState :=
  ⟨[⟨"ABCD", ["e4"], MatchStatus.InProgress, none, "*", some 0, none⟩],
   [⟨"ABCD", "alice", Side.White, 1, 1⟩],
   [], []⟩

/-- An in-progress match `ABCD` in which `alice` already voted `d4` at the
current ply. -/
def c8State : EngineState :=
  ⟨[⟨"ABCD", [], MatchStatus.InProgress, none, "*", some 0, none⟩],
   [⟨"ABCD", "alice", Side.White, 1, 0⟩],
   [⟨"ABCD", "alice", 0, some "d4", false, false⟩],
   []⟩

/-- An in-progress match `ABCD` with four eligible white voters of whom
`alice` has already voted to resign. -/
def c4StateOne : EngineState :=
  ⟨[⟨"ABCD", [], MatchStatus.InProgress, none, "*", some 0, none⟩],
   [⟨"ABCD", "alice", Side.White, 0, 0⟩,
    ⟨"ABCD", "bob", Side.White, 0, 0⟩,
    ⟨"ABCD", "carol", Side.White, 0, 0⟩,
    ⟨"ABCD", "dave", Side.White, 0, 0⟩],
   [⟨"ABCD", "alice", 0, none, true, false⟩],
   []⟩

/-- Like `c4StateOne` but with `alice` and `bob` both flagged to resign. -/
def c4StateTwo : EngineState :=
  ⟨[⟨"ABCD", [], MatchStatus.InProgress, none, "*", some 0, none⟩],
   [⟨"ABCD", "alice", Side.White, 0, 0⟩,
    ⟨"ABCD", "bob", Side.White, 0, 0⟩,
    ⟨"ABCD", "carol", Side.White, 0, 0⟩,
    ⟨"ABCD", "dave", Side.White, 0, 0⟩],
   [⟨"ABCD", "alice", 0, none, true, false⟩,
    ⟨"ABCD", "bob", 0, none, true, false⟩],
   []⟩

/-- An in-progress match `ABCD` at ply 0 with two white voters of whom
`alice` has already voted draw; no draw-offer markers exist. -/
def c5StateOffer : EngineState :=
  ⟨[⟨"ABCD", [], MatchStatus.InProgress, none, "*", some 0, none⟩],
   [⟨"ABCD", "alice", Side.White, 0, 0⟩,
    ⟨"ABCD", "bob", Side.White, 0, 0⟩],
   [⟨"ABCD", "alice", 0, none, false, true⟩],
   []⟩

/-- An in-progress match `ABCD` at ply 1 (black to move) with two black
voters of whom `carol` has already voted draw; white's majority left a
draw-offer marker at ply 0. -/
def c5StateAccept : EngineState :=
  ⟨[⟨"ABCD", ["e4"], MatchStatus.InProgress, none, "*", some 0, none⟩],
   [⟨"ABCD", "carol", Side.Black, 0, 0⟩,
    ⟨"ABCD", "dan", Side.Black, 0, 0⟩],
   [⟨"ABCD", "carol", 1, none, false, true⟩],
   [⟨"ABCD", 0, true⟩]⟩

/-- A not-yet-started match `ABCD` with three players joined as white, one
as black and nobody in the Random pool. -/
def c7State : EngineState :=
  ⟨[⟨"ABCD", [], MatchStatus.NotStarted, none, "*", none, none⟩],
   [⟨"ABCD", "a", Side.White, 0, 0⟩,
    ⟨"ABCD", "b", Side.White, 0, 0⟩,
    ⟨"ABCD", "c", Side.White, 0, 0⟩,
    ⟨"ABCD", "d", Side.Black, 0, 0⟩],
   [], []⟩

/-- A not-yet-started match `ABCD` with one white, one black and two Random
players. -/
def c7RandState : EngineState :=
  ⟨[⟨"ABCD", [], MatchStatus.NotStarted, none, "*", none, none⟩],
   [⟨"ABCD", "a", Side.White, 0, 0⟩,
    ⟨"ABCD", "b", Side.Black, 0, 0⟩,
    ⟨"ABCD", "c", Side.Random, 0, 0⟩,
    ⟨"ABCD", "d", Side.Random, 0, 0⟩],
   [], []⟩

/-- Per-row field consistency (the amended form of spec §8's invariant):
a match is Complete exactly when `result` and `unix_time_ended` are
non-null, and a non-default `termination` only occurs on a Complete match
(a Complete match may keep the default `"*"`: the unknown-reason branch). -/
def matchFieldsConsistent (r : MatchRow) : Prop :=
  (r.status = MatchStatus.Complete ↔
    (r.result ≠ none ∧ r.unixTimeEnded ≠ none))
  ∧ (r.termination ≠ "*" → r.status = MatchStatus.Complete)

instance (r : MatchRow) : Decidable (matchFieldsConsistent r) := by
  unfold matchFieldsConsistent
  infer_instance

/-- The match codes of the store are pairwise distinct (`match_code` is the
primary key of `VoteMatches`, and `create` draws codes until unused). -/
def matchCodesNodup (st : EngineState) : Prop :=
  (st.voteMatches.map (fun r => r.matchCode)).Nodup

/-- A store reached by: create `ABCD`; `alice` joins white, `bob` joins
black; start; `alice`'s vote `Kxe2` completes the round and the position
after the move is over without checkmate, stalemate, repetition or the
fifty-move rule.  (Realizable: create the match from FEN
`4k3/8/8/8/8/8/4p3/4K3 w - - 0 1`; after 1.Kxe2 only the two kings remain,
so `board.is_game_over()` holds by insufficient material while all four
conditions the code checks are false.) -/
def c6Reached : EngineState :=
  (vcCastMoveVote
    (vcStartMatch
      (vcJoinMatch
        (vcJoinMatch (vcCreateMatch ⟨[], [], [], []⟩ "ABCD").1
          "ABCD" "alice" Side.White).1
        "ABCD" "bob" Side.Black).1
      "ABCD" true [] 1).1
    "ABCD" "alice" (some "Kxe2") ⟨true, false, false, false, false, false⟩
    2).1

/-! ## Claims -/

/-- C1: the claim says that a completed round with a strict-top candidate
(votes `e4`:2 vs `Nf3`:1 among 3 eligible voters) elects that candidate,
applies it to the mainline and advances the ply, regardless of which
players voted for which move.  The code instead compares the two player
LISTS (`vote_counts[0][1] > vote_counts[1][1]`, `bot.py` line 2115), not
their sizes: with `{alice, bob}` voting `e4` and `zed` voting `Nf3`,
Python's list order makes the comparison false and the round is voided —
all votes for the ply are deleted, nothing is applied, the ply stays 0 —
even though the spec-side winner is `e4`. -/
theorem tally_strict_top_treated_as_tie :
    specStrictTopWinner
      [("alice", some "e4"), ("bob", some "e4"), ("zed", some "Nf3")]
      = some "e4"
    ∧ vcCastMoveVote c1State "ABCD" "zed" (some "Nf3") quietVerdict 5 =
        ({ c1State with votes := [] }, MoveVoteOutcome.revoteTie) := by
  decide

/-- C2: the claim says that a completed round whose top two groups tie
(votes `e4`:1 vs `d4`:1 among 2 eligible voters) is voided.  With `bob`
voting `e4` and `alice` voting `d4` the list comparison
`["bob"] > ["alice"]` is true, so the code plays `e4`: the mainline
advances to `["e4"]`, the counters are bumped and no vote row is deleted —
even though the spec-side tally has no strict top. -/
theorem tally_true_tie_played_a_move :
    specStrictTopWinner [("bob", some "e4"), ("alice", some "d4")] = none
    ∧ vcCastMoveVote c2State "ABCD" "alice" (some "d4") quietVerdict 5 =
        (⟨[⟨"ABCD", ["e4"], MatchStatus.InProgress, none, "*", some 0,
            none⟩],
          [⟨"ABCD", "bob", Side.White, 1, 1⟩,
           ⟨"ABCD", "alice", Side.White, 1, 0⟩],
          [⟨"ABCD", "bob", 0, some "e4", false, false⟩,
           ⟨"ABCD", "alice", 0, some "d4", false, false⟩],
          []⟩,
         MoveVoteOutcome.movePlayed "e4" false) := by
  decide

/-- C3: the claim says an engine action on match `ABCD` (here: a winning
tally whose move delivers checkmate) leaves the distinct match `WXYZ`
untouched.  The game-over `UPDATE VoteMatches SET status = "Complete", ...`
(`bot.py` lines 2165-2170) has no `WHERE` clause, so completing `ABCD`
also rewrites `WXYZ`: status, result, termination and ended-time of the
bystander match all change. -/
theorem checkmate_update_completes_other_match :
    findMatch c3State "WXYZ" =
      some ⟨"WXYZ", [], MatchStatus.InProgress, none, "*", some 0, none⟩
    ∧ findMatch
        (vcCastMoveVote c3State "ABCD" "dan" (some "Qh4#") mateVerdict 9).1
        "WXYZ" =
      some ⟨"WXYZ", [], MatchStatus.Complete, some "checkmate", "0-1",
        some 0, some 9⟩
    ∧ (vcCastMoveVote c3State "ABCD" "dan" (some "Qh4#") mateVerdict 9).2 =
        MoveVoteOutcome.movePlayed "Qh4#" true := by
  decide

/-- C9: the claim says a pairing is deletable only while the match is
"Not Started".  The single-code `leave` branch (`bot.py` lines 1237-1263,
marked `TODO only allow user to leave "Not Started" matches`) checks no
status at all: `alice` leaves the In-Progress match `ABCD` and her pairing
row is deleted. -/
theorem leave_deletes_pairing_of_in_progress_match :
    (findMatch c9State "ABCD").map MatchRow.status =
      some MatchStatus.InProgress
    ∧ vcLeaveMatch c9State "alice" "ABCD" =
        ({ c9State with pairings := [] }, LeaveOutcome.left) := by
  decide

/-- C10: the claim says `/vc vote resign` (or `draw`) without a match code,
issued by a player with no In-Progress matches, reports "no active
matches" and terminates normally without evaluating the head of the empty
candidate list.  The branch that sends that notice (`bot.py` line 1500)
is missing a `return`, so the resign/draw path falls through to
`valid_match_codes[0]` on the empty list — an uncaught `IndexError`
(while the normal-move path returns safely). -/
theorem flag_vote_without_active_matches_hits_index_error :
    inferVoteMatchCode [] true = VoteInferOutcome.indexError
    ∧ inferVoteMatchCode [] false = VoteInferOutcome.notValidInAnyGame := by
  decide

theorem length_one_not_isEmpty {α : Type} (l : List α) (h : l.length = 1) :
    l.isEmpty = false := by
  cases l <;> simp_all

/-- C8: a player who already holds a non-null `moveCandidate` at the current
ply of an in-progress match has any further move vote for that match and
ply rejected as a duplicate (`bot.py` lines 1983-2012), with no state
change at all: the store is returned exactly as it was, so the stored vote
is not overwritten and no counter or vote row is touched. -/
theorem duplicate_move_vote_rejected_without_state_change
    (st : EngineState) (mc player san : String) (verdict : BoardVerdict)
    (now : Nat) (m : MatchRow)
    (hm : findMatch st mc = some m)
    (hst : m.status = MatchStatus.InProgress)
    (hside : (st.pairings.filter (fun p =>
        p.matchCode == mc && p.discordId == player &&
        sideEligible m.turnWhite p.side)).isEmpty = false)
    (hdup : (st.votes.filter (fun v =>
        v.matchCode == mc && v.discordId == player &&
        v.plyCount == m.plyCount && v.vote.isSome)).length = 1) :
    vcCastMoveVote st mc player (some san) verdict now =
      (st, MoveVoteOutcome.duplicateVote) := by
  have hne := length_one_not_isEmpty _ hdup
  unfold vcCastMoveVote
  rw [hm]
  simp only [hst, hside, hdup, hne, ne_eq, not_true_eq_false, if_false,
    Bool.false_eq_true, ite_false, not_false_eq_true, ite_true]

/-- Witness for C8: `alice`, having voted `d4` at ply 0 of `ABCD`, votes
`e4` again and is rejected with no state change. -/
theorem duplicate_move_vote_rejected_witness :
    vcCastMoveVote c8State "ABCD" "alice" (some "e4") quietVerdict 7 =
      (c8State, MoveVoteOutcome.duplicateVote) :=
  duplicate_move_vote_rejected_without_state_change c8State "ABCD" "alice"
    "e4" quietVerdict 7
    ⟨"ABCD", [], MatchStatus.InProgress, none, "*", some 0, none⟩
    (by decide) (by decide) (by decide) (by decide)

theorem find?_update_map (t : List MatchRow) (mc : String)
    (g : MatchRow → MatchRow) (hg : ∀ r, (g r).matchCode = r.matchCode) :
    (t.map (fun r => if r.matchCode == mc then g r else r)).find?
        (fun r => r.matchCode == mc) =
      (t.find? (fun r => r.matchCode == mc)).map g := by
  induction t with
  | nil => rfl
  | cons r t ih =>
    simp only [List.map_cons]
    by_cases h : (r.matchCode == mc) = true
    · have hgr : ((g r).matchCode == mc) = true := by rw [hg r]; exact h
      rw [if_pos h, List.find?_cons, List.find?_cons, hgr, h]
      rfl
    · have h' : (r.matchCode == mc) = false := by
        cases hb : (r.matchCode == mc)
        · rfl
        · exact absurd hb h
      rw [if_neg h, List.find?_cons, List.find?_cons, h']
      exact ih

/-- C4: after a resign-flag vote is recorded for an in-progress match, the
match ends as a resignation — status Complete, result "resignation",
termination favoring the side not to move — exactly when the number of
eligible voters holding a resign flag at the current ply reaches
`num_players_on_side // 2 + 1` (`bot.py` lines 1727-1763 and 1876-1894);
below the threshold the store only gains the recorded flag. -/
theorem resign_flag_majority_ends_match
    (st : EngineState) (mc player : String) (now : Nat) (m : MatchRow)
    (hm : findMatch st mc = some m)
    (hst : m.status = MatchStatus.InProgress)
    (hside : (st.pairings.filter (fun p =>
        p.matchCode == mc && p.discordId == player &&
        sideEligible m.turnWhite p.side)).isEmpty = false)
    (hnot : st.votes.any (fun v =>
        v.matchCode == mc && v.discordId == player &&
        v.plyCount == m.plyCount && v.votedResign) = false)
    (hassert : (eligibleNotVoted st.pairings
        (recordFlag st.votes mc player m.plyCount false) mc m.turnWhite
        m.plyCount).isEmpty = false) :
    (((vcCastFlagVote st mc player false now).2 = FlagVoteOutcome.resigned)
      ↔ (eligiblePairings st.pairings mc m.turnWhite).length / 2 + 1 ≤
          (eligibleFlagged st.pairings
            (recordFlag st.votes mc player m.plyCount false) mc m.turnWhite
            m.plyCount false).length)
    ∧ ((eligiblePairings st.pairings mc m.turnWhite).length / 2 + 1 ≤
          (eligibleFlagged st.pairings
            (recordFlag st.votes mc player m.plyCount false) mc m.turnWhite
            m.plyCount false).length →
        findMatch (vcCastFlagVote st mc player false now).1 mc =
          some { m with status := MatchStatus.Complete,
                        result := some "resignation",
                        termination := if m.turnWhite then "0-1" else "1-0",
                        unixTimeEnded := some now })
    ∧ (¬((eligiblePairings st.pairings mc m.turnWhite).length / 2 + 1 ≤
          (eligibleFlagged st.pairings
            (recordFlag st.votes mc player m.plyCount false) mc m.turnWhite
            m.plyCount false).length) →
        (vcCastFlagVote st mc player false now).1 =
          { st with votes :=
              recordFlag st.votes mc player m.plyCount false }) := by
  have hkn : (eligibleFlagged st.pairings
      (recordFlag st.votes mc player m.plyCount false) mc m.turnWhite
      m.plyCount false).length ≤
      (eligiblePairings st.pairings mc m.turnWhite).length :=
    List.length_filter_le _ _
  by_cases hmaj : (eligiblePairings st.pairings mc m.turnWhite).length / 2
      + 1 ≤
      (eligibleFlagged st.pairings
        (recordFlag st.votes mc player m.plyCount false) mc m.turnWhite
        m.plyCount false).length
  · have hn0 : ((eligiblePairings st.pairings mc m.turnWhite).length == 0)
        = false := by
      simp only [beq_eq_false_iff_ne, ne_eq]
      omega
    have hk0 : ((eligibleFlagged st.pairings
        (recordFlag st.votes mc player m.plyCount false) mc m.turnWhite
        m.plyCount false).length == 0) = false := by
      simp only [beq_eq_false_iff_ne, ne_eq]
      omega
    have hrun : vcCastFlagVote st mc player false now =
        (⟨completeMatchRow st.voteMatches mc "resignation"
            (if m.turnWhite then "0-1" else "1-0") now,
          st.pairings,
          recordFlag st.votes mc player m.plyCount false,
          st.drawOffers⟩,
         FlagVoteOutcome.resigned) := by
      unfold vcCastFlagVote
      rw [hm]
      simp only [hst, hside, hnot, hassert, hn0, hk0, hmaj, ne_eq,
        not_true_eq_false, ite_false, ite_true, Bool.false_eq_true,
        not_false_eq_true, if_true, if_false, Bool.if_false_left,
        Bool.if_false_right, if_pos, Bool.and_false, Bool.and_true]
    refine ⟨?_, ?_, ?_⟩
    · rw [hrun]
      simp [hmaj]
    · intro _
      rw [hrun]
      unfold findMatch completeMatchRow
      dsimp only
      rw [find?_update_map st.voteMatches mc
        (fun r => { r with
          status := MatchStatus.Complete,
          result := some "resignation",
          termination := (if m.turnWhite then "0-1" else "1-0"),
          unixTimeEnded := some now }) (fun r => rfl)]
      rw [show (st.voteMatches.find? fun r => r.matchCode == mc) = some m
        from hm]
      rfl
    · intro h
      exact absurd hmaj h
  · have hrun : (vcCastFlagVote st mc player false now).1 =
        { st with votes := recordFlag st.votes mc player m.plyCount false }
        ∧ (vcCastFlagVote st mc player false now).2 ≠
          FlagVoteOutcome.resigned := by
      unfold vcCastFlagVote
      rw [hm]
      by_cases hn0 : ((eligiblePairings st.pairings mc m.turnWhite).length
          == 0) = true
      · simp only [hst, hside, hnot, hassert, hn0, ne_eq,
          not_true_eq_false, ite_false, ite_true, Bool.false_eq_true,
          not_false_eq_true, if_true, if_false]
        exact ⟨by simp, by simp⟩
      · simp only [Bool.not_eq_true] at hn0
        by_cases hk0 : ((eligibleFlagged st.pairings
            (recordFlag st.votes mc player m.plyCount false) mc m.turnWhite
            m.plyCount false).length == 0) = true
        · simp only [hst, hside, hnot, hassert, hn0, hk0, ne_eq,
            not_true_eq_false, ite_false, ite_true, Bool.false_eq_true,
            not_false_eq_true, if_true, if_false]
          exact ⟨by simp, by simp⟩
        · simp only [Bool.not_eq_true] at hk0
          simp only [hst, hside, hnot, hassert, hn0, hk0, hmaj, ne_eq,
            not_true_eq_false, ite_false, ite_true, Bool.false_eq_true,
            not_false_eq_true, if_true, if_false]
          exact ⟨by simp, by simp⟩
    refine ⟨?_, ?_, ?_⟩
    · rw [iff_false_intro hmaj]
      simp only [iff_false]
      exact hrun.2
    · intro h
      exact absurd h hmaj
    · intro _
      exact hrun.1

/-- Witness for C4: with 4 eligible voters a third resign flag ends the
match as a resignation (threshold 3 = 4//2+1 reached), while a second
flag does not. -/
theorem resign_flag_majority_witness :
    (vcCastFlagVote c4StateTwo "ABCD" "carol" false 9).2 =
      FlagVoteOutcome.resigned
    ∧ (vcCastFlagVote c4StateOne "ABCD" "bob" false 9).2 ≠
      FlagVoteOutcome.resigned := by
  constructor
  · exact (resign_flag_majority_ends_match c4StateTwo "ABCD" "carol" 9
      ⟨"ABCD", [], MatchStatus.InProgress, none, "*", some 0, none⟩
      (by decide) (by decide) (by decide) (by decide) (by decide)).1.mpr
      (by decide)
  · intro h
    exact absurd ((resign_flag_majority_ends_match c4StateOne "ABCD" "bob" 9
      ⟨"ABCD", [], MatchStatus.InProgress, none, "*", some 0, none⟩
      (by decide) (by decide) (by decide) (by decide) (by decide)).1.mp h)
      (by decide)

theorem hasPrevDrawOffer_insert (offers : List DrawOfferRow) (mc : String)
    (ply : Nat) :
    hasPrevDrawOffer (insertDrawOffer offers mc ply) mc ply =
      hasPrevDrawOffer offers mc ply := by
  unfold insertDrawOffer hasPrevDrawOffer
  split
  · rfl
  · rw [List.any_append]
    simp

/-- C5: a majority of draw flags at the current ply records a
`VoteMatchDrawOffers` marker for this ply but does not end the match by
itself; the match is completed as a mutual-agreement draw (status
Complete, result "mutual agreement", termination "1/2-1/2") exactly when
the majority occurs AND a marker already exists for the previous ply of
the same match (`bot.py` lines 1764-1801). -/
theorem draw_flag_majority_offer_then_accept
    (st : EngineState) (mc player : String) (now : Nat) (m : MatchRow)
    (hm : findMatch st mc = some m)
    (hst : m.status = MatchStatus.InProgress)
    (hside : (st.pairings.filter (fun p =>
        p.matchCode == mc && p.discordId == player &&
        sideEligible m.turnWhite p.side)).isEmpty = false)
    (hnot : st.votes.any (fun v =>
        v.matchCode == mc && v.discordId == player &&
        v.plyCount == m.plyCount && v.votedDraw) = false)
    (hassert : (eligibleNotVoted st.pairings
        (recordFlag st.votes mc player m.plyCount true) mc m.turnWhite
        m.plyCount).isEmpty = false) :
    (((vcCastFlagVote st mc player true now).2 = FlagVoteOutcome.drawAccepted)
      ↔ ((eligiblePairings st.pairings mc m.turnWhite).length / 2 + 1 ≤
            (eligibleFlagged st.pairings
              (recordFlag st.votes mc player m.plyCount true) mc m.turnWhite
              m.plyCount true).length
          ∧ hasPrevDrawOffer st.drawOffers mc m.plyCount = true))
    ∧ ((eligiblePairings st.pairings mc m.turnWhite).length / 2 + 1 ≤
          (eligibleFlagged st.pairings
            (recordFlag st.votes mc player m.plyCount true) mc m.turnWhite
            m.plyCount true).length →
        (vcCastFlagVote st mc player true now).1.drawOffers =
          insertDrawOffer st.drawOffers mc m.plyCount)
    ∧ ((vcCastFlagVote st mc player true now).2 =
          FlagVoteOutcome.drawAccepted →
        findMatch (vcCastFlagVote st mc player true now).1 mc =
          some { m with status := MatchStatus.Complete,
                        result := some "mutual agreement",
                        termination := "1/2-1/2",
                        unixTimeEnded := some now })
    ∧ ((eligiblePairings st.pairings mc m.turnWhite).length / 2 + 1 ≤
          (eligibleFlagged st.pairings
            (recordFlag st.votes mc player m.plyCount true) mc m.turnWhite
            m.plyCount true).length →
        hasPrevDrawOffer st.drawOffers mc m.plyCount = false →
        (vcCastFlagVote st mc player true now).1 =
          { st with
            votes := recordFlag st.votes mc player m.plyCount true,
            drawOffers := insertDrawOffer st.drawOffers mc m.plyCount }
        ∧ (vcCastFlagVote st mc player true now).2 =
            FlagVoteOutcome.drawOffered) := by
  have hkn : (eligibleFlagged st.pairings
      (recordFlag st.votes mc player m.plyCount true) mc m.turnWhite
      m.plyCount true).length ≤
      (eligiblePairings st.pairings mc m.turnWhite).length :=
    List.length_filter_le _ _
  by_cases hmaj : (eligiblePairings st.pairings mc m.turnWhite).length / 2
      + 1 ≤
      (eligibleFlagged st.pairings
        (recordFlag st.votes mc player m.plyCount true) mc m.turnWhite
        m.plyCount true).length
  · have hn0 : ((eligiblePairings st.pairings mc m.turnWhite).length == 0)
        = false := by
      simp only [beq_eq_false_iff_ne, ne_eq]
      omega
    have hk0 : ((eligibleFlagged st.pairings
        (recordFlag st.votes mc player m.plyCount true) mc m.turnWhite
        m.plyCount true).length == 0) = false := by
      simp only [beq_eq_false_iff_ne, ne_eq]
      omega
    by_cases hprev : hasPrevDrawOffer st.drawOffers mc m.plyCount = true
    · have hprev' : hasPrevDrawOffer
          (insertDrawOffer st.drawOffers mc m.plyCount) mc m.plyCount
          = true := by
        rw [hasPrevDrawOffer_insert]
        exact hprev
      have hrun : vcCastFlagVote st mc player true now =
          (⟨completeMatchRow st.voteMatches mc "mutual agreement"
              "1/2-1/2" now,
            st.pairings,
            recordFlag st.votes mc player m.plyCount true,
            insertDrawOffer st.drawOffers mc m.plyCount⟩,
           FlagVoteOutcome.drawAccepted) := by
        unfold vcCastFlagVote
        rw [hm]
        simp only [hst, hside, hnot, hassert, hn0, hk0, hmaj, hprev', ne_eq,
          not_true_eq_false, ite_false, ite_true, Bool.false_eq_true,
          not_false_eq_true, if_true, if_false]
      refine ⟨?_, ?_, ?_, ?_⟩
      · rw [hrun]
        simp [hmaj, hprev]
      · intro _
        rw [hrun]
      · intro _
        rw [hrun]
        unfold findMatch completeMatchRow
        dsimp only
        rw [find?_update_map st.voteMatches mc
          (fun r => { r with
            status := MatchStatus.Complete,
            result := some "mutual agreement",
            termination := "1/2-1/2",
            unixTimeEnded := some now }) (fun r => rfl)]
        rw [show (st.voteMatches.find? fun r => r.matchCode == mc) = some m
          from hm]
        rfl
      · intro _ hfalse
        rw [hprev] at hfalse
        exact absurd hfalse (by simp)
    · have hprevf : hasPrevDrawOffer st.drawOffers mc m.plyCount = false :=
        by
          cases hb : hasPrevDrawOffer st.drawOffers mc m.plyCount
          · rfl
          · exact absurd hb hprev
      have hprev' : hasPrevDrawOffer
          (insertDrawOffer st.drawOffers mc m.plyCount) mc m.plyCount
          = false := by
        rw [hasPrevDrawOffer_insert]
        exact hprevf
      have hrun : vcCastFlagVote st mc player true now =
          (⟨st.voteMatches,
            st.pairings,
            recordFlag st.votes mc player m.plyCount true,
            insertDrawOffer st.drawOffers mc m.plyCount⟩,
           FlagVoteOutcome.drawOffered) := by
        unfold vcCastFlagVote
        rw [hm]
        simp only [hst, hside, hnot, hassert, hn0, hk0, hmaj, hprev', ne_eq,
          not_true_eq_false, ite_false, ite_true, Bool.false_eq_true,
          not_false_eq_true, if_true, if_false]
      refine ⟨?_, ?_, ?_, ?_⟩
      · rw [hrun]
        simp [hprevf]
      · intro _
        rw [hrun]
      · intro hacc
        rw [hrun] at hacc
        exact absurd hacc (by simp)
      · intro _ _
        rw [hrun]
        exact ⟨rfl, rfl⟩
  · have hrun : (vcCastFlagVote st mc player true now).1 =
        { st with votes := recordFlag st.votes mc player m.plyCount true }
        ∧ (vcCastFlagVote st mc player true now).2 ≠
          FlagVoteOutcome.drawAccepted := by
      unfold vcCastFlagVote
      rw [hm]
      by_cases hn0 : ((eligiblePairings st.pairings mc m.turnWhite).length
          == 0) = true
      · simp only [hst, hside, hnot, hassert, hn0, ne_eq,
          not_true_eq_false, ite_false, ite_true, Bool.false_eq_true,
          not_false_eq_true, if_true, if_false]
        exact ⟨by simp, by simp⟩
      · simp only [Bool.not_eq_true] at hn0
        by_cases hk0 : ((eligibleFlagged st.pairings
            (recordFlag st.votes mc player m.plyCount true) mc m.turnWhite
            m.plyCount true).length == 0) = true
        · simp only [hst, hside, hnot, hassert, hn0, hk0, ne_eq,
            not_true_eq_false, ite_false, ite_true, Bool.false_eq_true,
            not_false_eq_true, if_true, if_false]
          exact ⟨by simp, by simp⟩
        · simp only [Bool.not_eq_true] at hk0
          simp only [hst, hside, hnot, hassert, hn0, hk0, hmaj, ne_eq,
            not_true_eq_false, ite_false, ite_true, Bool.false_eq_true,
            not_false_eq_true, if_true, if_false]
          exact ⟨by simp, by simp⟩
    refine ⟨?_, ?_, ?_, ?_⟩
    · constructor
      · intro hacc
        exact absurd hacc hrun.2
      · intro hand
        exact absurd hand.1 hmaj
    · intro h
      exact absurd h hmaj
    · intro hacc
      exact absurd hacc hrun.2
    · intro h
      exact absurd h hmaj

/-- Witness for C5: with two eligible voters (threshold 2), `bob`'s second
draw flag at ply 0 of `c5StateOffer` only records a marker (no prior-ply
marker exists, the match does not end), while `dan`'s second draw flag at
ply 1 of `c5StateAccept` — where ply 0 carries a marker — completes the
match as a mutual-agreement draw. -/
theorem draw_flag_majority_witness :
    (vcCastFlagVote c5StateOffer "ABCD" "bob" true 9).2 =
      FlagVoteOutcome.drawOffered
    ∧ (vcCastFlagVote c5StateAccept "ABCD" "dan" true 9).2 =
      FlagVoteOutcome.drawAccepted
    ∧ findMatch (vcCastFlagVote c5StateAccept "ABCD" "dan" true 9).1 "ABCD" =
      some ⟨"ABCD", ["e4"], MatchStatus.Complete, some "mutual agreement",
        "1/2-1/2", some 0, some 9⟩ := by
  refine ⟨?_, ?_, ?_⟩
  · exact ((draw_flag_majority_offer_then_accept c5StateOffer "ABCD" "bob" 9
      ⟨"ABCD", [], MatchStatus.InProgress, none, "*", some 0, none⟩
      (by decide) (by decide) (by decide) (by decide) (by decide)).2.2.2
      (by decide) (by decide)).2
  · exact (draw_flag_majority_offer_then_accept c5StateAccept "ABCD" "dan" 9
      ⟨"ABCD", ["e4"], MatchStatus.InProgress, none, "*", some 0, none⟩
      (by decide) (by decide) (by decide) (by decide) (by decide)).1.mpr
      ⟨by decide, by decide⟩
  · exact (draw_flag_majority_offer_then_accept c5StateAccept "ABCD" "dan" 9
      ⟨"ABCD", ["e4"], MatchStatus.InProgress, none, "*", some 0, none⟩
      (by decide) (by decide) (by decide) (by decide) (by decide)).2.2.1
      ((draw_flag_majority_offer_then_accept c5StateAccept "ABCD" "dan" 9
        ⟨"ABCD", ["e4"], MatchStatus.InProgress, none, "*", some 0, none⟩
        (by decide) (by decide) (by decide) (by decide) (by decide)).1.mpr
        ⟨by decide, by decide⟩)

/-- Counterexample to C7 as stated: Start succeeds on `c7State` (both sides
have players, so validation passes and — the Random pool being empty — no
balancing runs at all), yet the resulting team sizes are 3 vs 1, differing
by more than 1. -/
theorem start_succeeds_with_unbalanced_teams :
    (vcStartMatch c7State "ABCD" true [] 3).2 = StartOutcome.started
    ∧ teamSize (vcStartMatch c7State "ABCD" true [] 3).1 "ABCD" true = 3
    ∧ teamSize (vcStartMatch c7State "ABCD" true [] 3).1 "ABCD" false = 1 := by
  decide

theorem vcStartFormation_covers
    (whiteIds blackIds bothIds randomIds : List String) (coin : Bool)
    (sample : List String) (tw tb : List String)
    (h : vcStartFormation whiteIds blackIds bothIds randomIds coin sample =
      FormationResult.ok tw tb) :
    ∀ x ∈ randomIds, x ∈ tw ∨ x ∈ tb := by
  intro x hx
  unfold vcStartFormation at h
  by_cases hr : randomIds.isEmpty = true
  · rw [List.isEmpty_iff.mp hr] at hx
    exact absurd hx (List.not_mem_nil x)
  · rw [if_neg hr] at h
    simp only [] at h
    split at h
    · exact absurd h (by simp)
    · split at h
      · split at h
        · exact absurd h (by simp)
        · rename_i hvalid hlen
          injection h with h1 h2
          by_cases hs : sample.contains x = true
          · left
            rw [← h1]
            exact List.elem_iff.mp hs
          · right
            rw [← h2]
            refine List.mem_filter.mpr ⟨hx, ?_⟩
            simp only [Bool.not_eq_true] at hs
            rw [hs]
            rfl
      · exact absurd h (by simp)

/-- C7 (amended): once Start succeeds no pairing of the match keeps
`side = Random` — but the resulting White/Black sizes are only guaranteed
to differ by at most 1 when the Random pool is nonempty and neither
explicit side is already oversized (both computed transfer counts are
nonnegative).  When a side is oversized the whole pool goes to the smaller
side, and when the pool is empty no balancing runs, so in both of those
cases the difference may exceed 1 (counterexample above). -/
theorem start_resolves_random_and_balances_when_transfers_nonneg :
    (∀ (st : EngineState) (mc : String) (coin : Bool) (sample : List String)
        (now : Nat) (st' : EngineState),
        vcStartMatch st mc coin sample now = (st', StartOutcome.started) →
        ∀ p ∈ st'.pairings, p.matchCode = mc → p.side ≠ Side.Random)
    ∧ (∀ (whiteIds blackIds bothIds randomIds : List String) (coin : Bool)
        (sample : List String) (tw tb : List String),
        vcStartFormation whiteIds blackIds bothIds randomIds coin sample =
          FormationResult.ok tw tb →
        randomIds ≠ [] →
        (whiteIds.length + bothIds.length : Int) ≤
          futureTeamSize (whiteIds.length + bothIds.length +
            (blackIds.length + bothIds.length) + randomIds.length) coin →
        (blackIds.length + bothIds.length : Int) ≤
          futureTeamSize (whiteIds.length + bothIds.length +
            (blackIds.length + bothIds.length) + randomIds.length) (!coin) →
        ((whiteIds.length + bothIds.length + tw.length : Int) -
          (blackIds.length + bothIds.length + tb.length)).natAbs ≤ 1) := by
  constructor
  · intro st mc coin sample now st' hstart p hp hpmc
    unfold vcStartMatch at hstart
    dsimp only at hstart
    split at hstart
    · simp at hstart
    · rename_i m hm
      split at hstart
      · simp at hstart
      · split at hstart
        · simp at hstart
        · split at hstart
          · simp at hstart
          · split at hstart
            · simp at hstart
            · split at hstart
              · simp at hstart
              · split at hstart
                · simp at hstart
                · simp at hstart
                · simp at hstart
                · rename_i tw tb hform
                  have hcov := vcStartFormation_covers _ _ _ _ _ _ _ _ hform
                  injection hstart with hA hB
                  subst hA
                  dsimp only at hp
                  rcases List.mem_map.mp hp with ⟨q, hq, hfq⟩
                  intro hrand
                  by_cases h1 : (q.matchCode == mc &&
                      tw.contains q.discordId) = true
                  · rw [if_pos h1] at hfq
                    rw [← hfq] at hrand
                    exact Side.noConfusion hrand
                  · rw [if_neg h1] at hfq
                    by_cases h2 : (q.matchCode == mc &&
                        tb.contains q.discordId) = true
                    · rw [if_pos h2] at hfq
                      rw [← hfq] at hrand
                      exact Side.noConfusion hrand
                    · rw [if_neg h2] at hfq
                      have hqmc : (q.matchCode == mc) = true :=
                        beq_iff_eq.mpr (hfq ▸ hpmc)
                      have hqrand : (q.side == Side.Random) = true := by
                        rw [hfq]
                        exact beq_iff_eq.mpr hrand
                      have hmem : q.discordId ∈
                          List.map (fun p => p.discordId)
                            (List.filter (fun p => p.side == Side.Random)
                              (List.filter (fun p => p.matchCode == mc)
                                st.pairings)) :=
                        List.mem_map.mpr ⟨q, List.mem_filter.mpr
                          ⟨List.mem_filter.mpr ⟨hq, hqmc⟩, hqrand⟩, rfl⟩
                      rcases hcov _ hmem with htw | htb
                      · refine absurd ?_ h1
                        have hc : tw.contains q.discordId = true :=
                          List.elem_iff.mpr htw
                        rw [hqmc, hc]
                        rfl
                      · refine absurd ?_ h2
                        have hc : tb.contains q.discordId = true :=
                          List.elem_iff.mpr htb
                        rw [hqmc, hc]
                        rfl
  · intro whiteIds blackIds bothIds randomIds coin sample tw tb hok hne hw hb
    have hie : randomIds.isEmpty = false := by
      cases randomIds
      · exact absurd rfl hne
      · rfl
    unfold vcStartFormation at hok
    rw [if_neg (by rw [hie]; simp)] at hok
    dsimp only at hok
    split at hok
    · simp at hok
    · rename_i ntw' ntb' hchoice
      split at hchoice
      · rename_i hcnd
        rcases hcnd with h | h
        · exact absurd h (by omega)
        · exact absurd h (by omega)
      · injection hchoice with hpair
        injection hpair with hW hB'
        subst hW
        subst hB'
        split at hok
        · rename_i hvalid
          split at hok
          · simp at hok
          · rename_i hlen2
            obtain ⟨hlen, hsub, hnd⟩ := hvalid
            injection hok with htw htb
            rw [← htw, ← htb]
            have hnb := not_ne_iff.mp hlen2
            cases coin
            · simp only [futureTeamSize, Bool.not_false, Bool.not_true,
                Bool.false_eq_true, Bool.true_eq_false, if_true, if_false,
                ite_true, ite_false] at hlen hnb hw hb
              omega
            · simp only [futureTeamSize, Bool.not_false, Bool.not_true,
                Bool.false_eq_true, Bool.true_eq_false, if_true, if_false,
                ite_true, ite_false] at hlen hnb hw hb
              omega
        · simp at hok

/-- Witness for the amended C7: starting `c7RandState` (coin favoring
white, `c` sampled for white) leaves no Random pairing, and the balance
bound holds for the corresponding formation run (teams 1+1 vs 1+1). -/
theorem start_resolves_random_witness :
    (∀ p ∈ (vcStartMatch c7RandState "ABCD" true ["c"] 5).1.pairings,
        p.matchCode = "ABCD" → p.side ≠ Side.Random)
    ∧ (((["a"] : List String).length + ([] : List String).length +
        (["c"] : List String).length : Int) -
        ((["b"] : List String).length + ([] : List String).length +
        (["d"] : List String).length)).natAbs ≤ 1 := by
  constructor
  · exact start_resolves_random_and_balances_when_transfers_nonneg.1
      c7RandState "ABCD" true ["c"] 5
      (vcStartMatch c7RandState "ABCD" true ["c"] 5).1 (by decide)
  · exact start_resolves_random_and_balances_when_transfers_nonneg.2
      ["a"] ["b"] [] ["c", "d"] true ["c"] ["c"] ["d"]
      (by decide) (by decide) (by decide) (by decide)

theorem map_codes_pres (l : List MatchRow) (f : MatchRow → MatchRow)
    (hf : ∀ r, (f r).matchCode = r.matchCode) :
    (l.map f).map (fun r => r.matchCode) = l.map (fun r => r.matchCode) := by
  rw [List.map_map]
  exact List.map_congr_left (fun r _ => hf r)

theorem completeAllRows_consistent (t : List MatchRow) (res term : String)
    (now : Nat) :
    ∀ r ∈ completeAllRows t res term now, matchFieldsConsistent r := by
  intro r hr
  rcases List.mem_map.mp hr with ⟨q, hq, rfl⟩
  exact ⟨⟨fun _ => ⟨Option.some_ne_none _, Option.some_ne_none _⟩,
    fun _ => rfl⟩, fun _ => rfl⟩

theorem applyGameEnd_eq (t : List MatchRow) (v : BoardVerdict) (now : Nat) :
    applyGameEnd t v now = t
    ∨ ∃ res term, applyGameEnd t v now = completeAllRows t res term now := by
  unfold applyGameEnd
  split
  · split
    · exact Or.inr ⟨_, _, rfl⟩
    · split
      · exact Or.inr ⟨_, _, rfl⟩
      · split
        · exact Or.inr ⟨_, _, rfl⟩
        · split
          · exact Or.inr ⟨_, _, rfl⟩
          · exact Or.inr ⟨_, _, rfl⟩
  · exact Or.inl rfl

theorem applyGameEnd_cases (t : List MatchRow) (v : BoardVerdict) (now : Nat) :
    ∀ r ∈ applyGameEnd t v now, r ∈ t ∨ matchFieldsConsistent r := by
  intro r hr
  rcases applyGameEnd_eq t v now with heq | ⟨res, term, heq⟩
  · rw [heq] at hr
    exact Or.inl hr
  · rw [heq] at hr
    exact Or.inr (completeAllRows_consistent _ _ _ _ r hr)

theorem applyGameEnd_codes (t : List MatchRow) (v : BoardVerdict) (now : Nat) :
    (applyGameEnd t v now).map (fun r => r.matchCode) =
      t.map (fun r => r.matchCode) := by
  rcases applyGameEnd_eq t v now with heq | ⟨res, term, heq⟩
  · rw [heq]
  · rw [heq]
    exact map_codes_pres _ _ (fun r => rfl)

theorem consistent_status_update (q : MatchRow) (s : MatchStatus)
    (hq : matchFieldsConsistent q) (hqs : q.status ≠ MatchStatus.Complete)
    (hs : s ≠ MatchStatus.Complete) (ts : Option Nat) :
    matchFieldsConsistent
      { q with status := s, unixTimeStarted := ts } := by
  constructor
  · constructor
    · intro hc
      exact absurd hc hs
    · intro hre
      exact absurd (hq.1.mpr hre) hqs
  · intro ht
    exact absurd (hq.2 ht) hqs

theorem matchFieldsConsistent_fresh (mc : String) :
    matchFieldsConsistent
      ⟨mc, [], MatchStatus.NotStarted, none, "*", none, none⟩ := by
  constructor
  · constructor
    · intro hc
      exact MatchStatus.noConfusion hc
    · rintro ⟨h1, _⟩
      exact absurd rfl h1
  · intro ht
    exact absurd rfl ht

theorem vcCreateMatch_voteMatches (st : EngineState) (mc : String) :
    (vcCreateMatch st mc).1.voteMatches = st.voteMatches
    ∨ ((st.voteMatches.any (fun r => r.matchCode == mc)) = false ∧
       (vcCreateMatch st mc).1.voteMatches = st.voteMatches ++
         [⟨mc, [], MatchStatus.NotStarted, none, "*", none, none⟩]) := by
  unfold vcCreateMatch
  split
  · exact Or.inl rfl
  · rename_i hany
    exact Or.inr ⟨by simpa using hany, rfl⟩

theorem vcAbortMatch_voteMatches (st : EngineState) (mc : String) :
    (vcAbortMatch st mc).1.voteMatches = st.voteMatches
    ∨ ∃ m, findMatch st mc = some m ∧ m.status = MatchStatus.NotStarted ∧
      (vcAbortMatch st mc).1.voteMatches = st.voteMatches.map (fun r =>
        if r.matchCode == mc then { r with status := MatchStatus.Aborted }
        else r) := by
  unfold vcAbortMatch
  split
  · exact Or.inl rfl
  · rename_i m hm
    split
    · rename_i hns
      exact Or.inr ⟨m, hm, by simpa using hns, rfl⟩
    · exact Or.inl rfl

theorem vcJoinMatch_voteMatches (st : EngineState) (mc player : String)
    (side : Side) :
    (vcJoinMatch st mc player side).1.voteMatches = st.voteMatches := by
  unfold vcJoinMatch
  split
  · rfl
  · split
    · rfl
    · rfl

theorem vcLeaveMatch_voteMatches (st : EngineState) (player mc : String) :
    (vcLeaveMatch st player mc).1.voteMatches = st.voteMatches := by
  unfold vcLeaveMatch
  dsimp only
  split
  · rfl
  · split
    · rfl
    · rfl

theorem vcStartMatch_voteMatches (st : EngineState) (mc : String)
    (coin : Bool) (sample : List String) (now : Nat) :
    (vcStartMatch st mc coin sample now).1.voteMatches = st.voteMatches
    ∨ ((st.voteMatches.filter (fun r => r.matchCode == mc)).length = 1 ∧
       (∃ m, findMatch st mc = some m ∧ m.status = MatchStatus.NotStarted) ∧
       (vcStartMatch st mc coin sample now).1.voteMatches =
         st.voteMatches.map (fun r =>
           if r.matchCode == mc then
             { r with status := MatchStatus.InProgress,
                      unixTimeStarted := some now }
           else r)) := by
  unfold vcStartMatch
  dsimp only
  split
  · exact Or.inl rfl
  · rename_i m hm
    split
    · exact Or.inl rfl
    · rename_i hlen
      split
      · exact Or.inl rfl
      · rename_i hns
        split
        · exact Or.inl rfl
        · split
          · exact Or.inl rfl
          · split
            · exact Or.inl rfl
            · split
              · exact Or.inl rfl
              · exact Or.inl rfl
              · exact Or.inl rfl
              · exact Or.inr ⟨not_ne_iff.mp hlen,
                  ⟨m, hm, not_ne_iff.mp hns⟩, rfl⟩

theorem runTally_pair (st st' : EngineState) (out : MoveVoteOutcome)
    (mc : String) (ply : Nat) (v : BoardVerdict) (now : Nat)
    (hx : runTally st mc ply v now = (st', out)) :
    st'.voteMatches = st.voteMatches
    ∨ ∃ w, st'.voteMatches =
        (applyGameEnd st.voteMatches v now).map (fun r =>
          if r.matchCode == mc then
            { r with mainline := r.mainline ++ [w] }
          else r) := by
  unfold runTally at hx
  dsimp only at hx
  repeat' split at hx
  all_goals injection hx with h1 h2
  all_goals first
    | exact Or.inl (by subst h1; rfl)
    | exact Or.inr ⟨_, by subst h1; rfl⟩

theorem vcCastMoveVote_voteMatches (st : EngineState) (mc player : String)
    (parsed : Option String) (v : BoardVerdict) (now : Nat) :
    (vcCastMoveVote st mc player parsed v now).1.voteMatches = st.voteMatches
    ∨ ∃ w, (vcCastMoveVote st mc player parsed v now).1.voteMatches =
        (applyGameEnd st.voteMatches v now).map (fun r =>
          if r.matchCode == mc then
            { r with mainline := r.mainline ++ [w] }
          else r) := by
  rcases hx : vcCastMoveVote st mc player parsed v now with ⟨st', out⟩
  unfold vcCastMoveVote at hx
  dsimp only at hx
  repeat' split at hx
  all_goals try (injection hx with h1 h2
                 exact Or.inl (by subst h1; rfl))
  all_goals rcases runTally_pair _ _ _ _ _ _ _ hx with h | ⟨w, h⟩
  all_goals first
    | exact Or.inl h
    | exact Or.inr ⟨w, h⟩

theorem vcCastFlagVote_voteMatches (st : EngineState) (mc player : String)
    (isDraw : Bool) (now : Nat) :
    (vcCastFlagVote st mc player isDraw now).1.voteMatches = st.voteMatches
    ∨ ∃ res term,
        (vcCastFlagVote st mc player isDraw now).1.voteMatches =
          completeMatchRow st.voteMatches mc res term now := by
  rcases hx : vcCastFlagVote st mc player isDraw now with ⟨st', out⟩
  unfold vcCastFlagVote at hx
  dsimp only at hx
  repeat' split at hx
  all_goals injection hx with h1 h2
  all_goals first
    | exact Or.inl (by subst h1; rfl)
    | exact Or.inr ⟨_, _, by subst h1; rfl⟩

theorem reach_store_inv (st : EngineState) (h : Reach st) :
    matchCodesNodup st ∧ ∀ r ∈ st.voteMatches, matchFieldsConsistent r := by
  induction h with
  | init =>
    exact ⟨List.nodup_nil, fun r hr => absurd hr (List.not_mem_nil r)⟩
  | create st1 mc hr ih =>
    rcases vcCreateMatch_voteMatches st1 mc with heq | ⟨hany, heq⟩
    · exact ⟨by unfold matchCodesNodup; rw [heq]; exact ih.1,
        fun r hrm => ih.2 r (heq ▸ hrm)⟩
    · constructor
      · unfold matchCodesNodup
        rw [heq, List.map_append]
        dsimp only [List.map_cons, List.map_nil]
        refine List.Nodup.append ih.1 (List.nodup_singleton mc) ?_
        intro a ha hb
        rw [List.mem_singleton] at hb
        rcases List.mem_map.mp ha with ⟨q, hq, hqc⟩
        have : st1.voteMatches.any (fun r => r.matchCode == mc) = true :=
          List.any_eq_true.mpr ⟨q, hq, beq_iff_eq.mpr (hqc.trans hb)⟩
        rw [this] at hany
        exact Bool.noConfusion hany
      · intro r hrm
        rw [heq] at hrm
        rcases List.mem_append.mp hrm with h1 | h2
        · exact ih.2 r h1
        · rw [List.mem_singleton.mp h2]
          exact matchFieldsConsistent_fresh mc
  | abort st1 mc hr ih =>
    rcases vcAbortMatch_voteMatches st1 mc with heq | ⟨m, hm, hns, heq⟩
    · exact ⟨by unfold matchCodesNodup; rw [heq]; exact ih.1,
        fun r hrm => ih.2 r (heq ▸ hrm)⟩
    · constructor
      · unfold matchCodesNodup
        rw [heq, map_codes_pres _ _ (fun r => by split <;> rfl)]
        exact ih.1
      · intro r hrm
        rw [heq] at hrm
        rcases List.mem_map.mp hrm with ⟨q, hq, rfl⟩
        by_cases hc : (q.matchCode == mc) = true
        · rw [if_pos hc]
          have hm' : st1.voteMatches.find? (fun r => r.matchCode == mc) =
              some m := hm
          have hmmem : m ∈ st1.voteMatches :=
            List.mem_of_find?_eq_some hm'
          have hpm0 := List.find?_some hm'
          have hpm : (m.matchCode == mc) = true := hpm0
          have hqm : q = m := by
            apply List.inj_on_of_nodup_map ih.1 hq hmmem
            rw [beq_iff_eq.mp hc, beq_iff_eq.mp hpm]
          subst hqm
          exact consistent_status_update q MatchStatus.Aborted
            (ih.2 q hq) (by rw [hns]; exact fun hco =>
              MatchStatus.noConfusion hco)
            (fun hco => MatchStatus.noConfusion hco) q.unixTimeStarted
        · rw [if_neg hc]
          exact ih.2 q hq
  | join st1 mc player side hr ih =>
    have heq := vcJoinMatch_voteMatches st1 mc player side
    exact ⟨by unfold matchCodesNodup; rw [heq]; exact ih.1,
      fun r hrm => ih.2 r (heq ▸ hrm)⟩
  | leave st1 player mc hr ih =>
    have heq := vcLeaveMatch_voteMatches st1 player mc
    exact ⟨by unfold matchCodesNodup; rw [heq]; exact ih.1,
      fun r hrm => ih.2 r (heq ▸ hrm)⟩
  | start st1 mc coin sample now hr ih =>
    rcases vcStartMatch_voteMatches st1 mc coin sample now with
      heq | ⟨hlen, ⟨m, hm, hns⟩, heq⟩
    · exact ⟨by unfold matchCodesNodup; rw [heq]; exact ih.1,
        fun r hrm => ih.2 r (heq ▸ hrm)⟩
    · constructor
      · unfold matchCodesNodup
        rw [heq, map_codes_pres _ _ (fun r => by split <;> rfl)]
        exact ih.1
      · intro r hrm
        rw [heq] at hrm
        rcases List.mem_map.mp hrm with ⟨q, hq, rfl⟩
        by_cases hc : (q.matchCode == mc) = true
        · rw [if_pos hc]
          rcases List.length_eq_one.mp hlen with ⟨x, hx⟩
          have hqx : q ∈ st1.voteMatches.filter
              (fun r => r.matchCode == mc) :=
            List.mem_filter.mpr ⟨hq, hc⟩
          have hm' : st1.voteMatches.find? (fun r => r.matchCode == mc) =
              some m := hm
          have hpm0 := List.find?_some hm'
          have hpm : (m.matchCode == mc) = true := hpm0
          have hmx : m ∈ st1.voteMatches.filter
              (fun r => r.matchCode == mc) :=
            List.mem_filter.mpr ⟨List.mem_of_find?_eq_some hm', hpm⟩
          rw [hx, List.mem_singleton] at hqx hmx
          have hqm : q = m := by rw [hqx, hmx]
          subst hqm
          exact consistent_status_update q MatchStatus.InProgress
            (ih.2 q hq) (by rw [hns]; exact fun hco =>
              MatchStatus.noConfusion hco)
            (fun hco => MatchStatus.noConfusion hco) (some now)
        · rw [if_neg hc]
          exact ih.2 q hq
  | moveVote st1 mc player parsed v now hr ih =>
    rcases vcCastMoveVote_voteMatches st1 mc player parsed v now with
      heq | ⟨w, heq⟩
    · exact ⟨by unfold matchCodesNodup; rw [heq]; exact ih.1,
        fun r hrm => ih.2 r (heq ▸ hrm)⟩
    · constructor
      · unfold matchCodesNodup
        rw [heq, map_codes_pres _ _ (fun r => by split <;> rfl),
          applyGameEnd_codes]
        exact ih.1
      · intro r hrm
        rw [heq] at hrm
        rcases List.mem_map.mp hrm with ⟨q, hq, rfl⟩
        have hqc : matchFieldsConsistent q := by
          rcases applyGameEnd_cases st1.voteMatches v now q hq with
            hmem | hcons
          · exact ih.2 q hmem
          · exact hcons
        by_cases hc : (q.matchCode == mc) = true
        · rw [if_pos hc]
          exact hqc
        · rw [if_neg hc]
          exact hqc
  | flagVote st1 mc player isDraw now hr ih =>
    rcases vcCastFlagVote_voteMatches st1 mc player isDraw now with
      heq | ⟨res, term, heq⟩
    · exact ⟨by unfold matchCodesNodup; rw [heq]; exact ih.1,
        fun r hrm => ih.2 r (heq ▸ hrm)⟩
    · constructor
      · unfold matchCodesNodup
        rw [heq]
        unfold completeMatchRow
        rw [map_codes_pres _ _ (fun r => by split <;> rfl)]
        exact ih.1
      · intro r hrm
        rw [heq] at hrm
        unfold completeMatchRow at hrm
        rcases List.mem_map.mp hrm with ⟨q, hq, rfl⟩
        by_cases hc : (q.matchCode == mc) = true
        · rw [if_pos hc]
          exact ⟨⟨fun _ => ⟨Option.some_ne_none _, Option.some_ne_none _⟩,
            fun _ => rfl⟩, fun _ => rfl⟩
        · rw [if_neg hc]
          exact ih.2 q hq

/-- Counterexample to C6 as stated: a reachable store holds a match with
`status = Complete` whose `termination` still carries the default `"*"`
("unknown"), because the game-over dispatch falls through to the
unknown-reason branch (`bot.py` lines 2210-2218).  So "Complete ⇔ result,
termination, endedAt all set (non-null / non-default)" fails in the ⇒
direction for the termination field. -/
theorem complete_match_with_default_termination :
    Reach c6Reached
    ∧ findMatch c6Reached "ABCD" =
        some ⟨"ABCD", ["Kxe2"], MatchStatus.Complete, some "unknown", "*",
          some 1, some 2⟩ := by
  constructor
  · exact Reach.moveVote _ _ _ _ _ _ (Reach.start _ _ _ _ _
      (Reach.join _ _ _ _ (Reach.join _ _ _ _
        (Reach.create _ _ Reach.init))))
  · decide

/-- C6 (amended): in every reachable store, a match has
`status = Complete` exactly when `result` and `unix_time_ended` are
non-null, and a non-default `termination` occurs only on Complete matches
— but a Complete match's `termination` may remain the default `"*"` (the
unknown-reason game-over branch), so the original three-way "all
non-default" equivalence does not hold (counterexample above). -/
theorem reach_complete_iff_result_and_ended_set (st : EngineState)
    (h : Reach st) :
    ∀ r ∈ st.voteMatches, matchFieldsConsistent r :=
  (reach_store_inv st h).2

/-- Witness for the amended C6 at a concrete reachable store: the freshly
created match `ABCD` satisfies the field-consistency invariant. -/
theorem reach_complete_iff_witness :
    matchFieldsConsistent
      ⟨"ABCD", [], MatchStatus.NotStarted, none, "*", none, none⟩ :=
  reach_complete_iff_result_and_ended_set
    (vcCreateMatch ⟨[], [], [], []⟩ "ABCD").1
    (Reach.create _ _ Reach.init)
    ⟨"ABCD", [], MatchStatus.NotStarted, none, "*", none, none⟩
    (by decide)

end UVMCC
